/-
Verification of the motulator current-source-converter simulation core.

This file is a shallow embedding, in Lean 4, of the parts of the repository
that the checked properties concern:

* motulator/common/model/_csc.py — the algebraic current-source converter,
  its inductive-DC-bus variant, and their time-series reconstruction;
* motulator/grid/model/_lc_filter.py — the LC filter subsystem;
* motulator/grid/control/_csc_open_loop.py — the phase-locked loop and the
  open-loop controller.

Real scalars of the Python code are modelled by the real numbers and complex
space vectors by the complex numbers.  Python operations that can raise
(division by a zero float, a NotImplementedError stub) are embedded in the
Except monad; everything else is a pure function.  Helpers that live in
modules absent from the source tree (the angle helper wrap, the zero-order
hold of the interconnection driver) are modelled from the specification and
marked as such in their doc comments.
-/
import Mathlib

noncomputable section

/-! ## Converter model: motulator/common/model/_csc.py -/

/-- The u_dc input of the converter, a tagged variant of the Python union
float | Callable[[float], float] | None. -/
inductive UdcInput where
  | none : UdcInput
  | const (v : ℝ) : UdcInput
  | func (f : ℝ → ℝ) : UdcInput

/-- Resolution of the u_dc input at a time t, following the if chain of
InductiveDCBusCurrentSourceConverter.rhs: a callable is applied at t, a
numeric constant is used as is, an unset input resolves to zero. -/
def resolveUdc : UdcInput → ℝ → ℝ
  | .func f, t => f t
  | .const v, _ => v
  | .none, _ => 0

/-- Input variables of the converter (class Inputs in _csc.py). -/
structure CscInputs where
  q_c_ab : ℂ := 0
  u_c_ab : ℂ := 0
  u_dc : UdcInput := .none

/-- Output variables of the converter (class Outputs in _csc.py). -/
structure CscOutputs where
  i_c_ab : ℂ
  i_dc : ℝ

/-- Lossless three-phase current-source converter with constant DC-bus
current (class CurrentSourceConverter). -/
structure CurrentSourceConverter where
  i_dc : ℝ
  inp : CscInputs
  out : CscOutputs

/-- CurrentSourceConverter.__init__. -/
def CurrentSourceConverter.init (i_dc : ℝ) : CurrentSourceConverter :=
  { i_dc := i_dc, inp := {}, out := { i_c_ab := 0, i_dc := i_dc } }

/-- CurrentSourceConverter.set_external_dc_voltage: the base class raises
NotImplementedError unconditionally. -/
def CurrentSourceConverter.set_external_dc_voltage
    (c : CurrentSourceConverter) (u_dc : ℝ → ℝ) :
    Except String CurrentSourceConverter :=
  .error "NotImplementedError"

/-- CurrentSourceConverter.compute_internal_dc_voltage. -/
def CurrentSourceConverter.compute_internal_dc_voltage (inp : CscInputs) : ℝ :=
  1.5 * (inp.q_c_ab * (starRingEnd ℂ) inp.u_c_ab).re

/-- CurrentSourceConverter.set_outputs: writes i_c_ab := q_c_ab * i_dc into
the output record; the time argument is unused. -/
def CurrentSourceConverter.set_outputs
    (c : CurrentSourceConverter) (t : ℝ) : CurrentSourceConverter :=
  { c with out := { c.out with i_c_ab := c.inp.q_c_ab * (c.out.i_dc : ℂ) } }

/-- The interconnection driver writing the duty-ratio command into the
converter input (the inputs field is assigned by the driver,
never by the subsystem itself). -/
def CurrentSourceConverter.set_q
    (c : CurrentSourceConverter) (q : ℂ) : CurrentSourceConverter :=
  { c with inp := { c.inp with q_c_ab := q } }

/-- One control sample as the driver performs it on the algebraic converter:
the command is written into the input, then set_outputs recomputes the
outputs. -/
def CurrentSourceConverter.sample
    (c : CurrentSourceConverter) (tq : ℝ × ℂ) : CurrentSourceConverter :=
  (c.set_q tq.2).set_outputs tq.1

/-- A run of the algebraic converter over a list of samples. -/
def CurrentSourceConverter.run :
    CurrentSourceConverter → List (ℝ × ℂ) → CurrentSourceConverter
  | c, [] => c
  | c, tq :: rest => (c.sample tq).run rest

/-- State variables of the inductive-DC-bus variant. -/
structure InductiveStates where
  i_dc : ℝ

/-- Lossless current-source converter with inductive DC-bus dynamics
(class InductiveDCBusCurrentSourceConverter). -/
structure InductiveDCBusCurrentSourceConverter where
  i_dc : ℝ
  L_dc : ℝ
  inp : CscInputs
  out : CscOutputs
  state : InductiveStates
  history_i_dc : List ℝ

/-- InductiveDCBusCurrentSourceConverter.__init__. -/
def InductiveDCBusCurrentSourceConverter.init
    (i_dc L_dc : ℝ) : InductiveDCBusCurrentSourceConverter :=
  { i_dc := i_dc, L_dc := L_dc, inp := {},
    out := { i_c_ab := 0, i_dc := i_dc },
    state := { i_dc := i_dc }, history_i_dc := [] }

/-- InductiveDCBusCurrentSourceConverter.set_external_dc_voltage: the
override stores the supplied callable in the u_dc input. -/
def InductiveDCBusCurrentSourceConverter.set_external_dc_voltage
    (c : InductiveDCBusCurrentSourceConverter) (u_dc : ℝ → ℝ) :
    InductiveDCBusCurrentSourceConverter :=
  { c with inp := { c.inp with u_dc := .func u_dc } }

/-- InductiveDCBusCurrentSourceConverter.rhs: resolves the u_dc input,
computes the internal DC voltage, and returns the single derivative
(u_dc - u_dc_int) / L_dc.  The Python float division raises
ZeroDivisionError when L_dc is zero. -/
def InductiveDCBusCurrentSourceConverter.rhs
    (c : InductiveDCBusCurrentSourceConverter) (t : ℝ) :
    Except String (List ℝ) :=
  let u_dc := resolveUdc c.inp.u_dc t
  let u_dc_int := CurrentSourceConverter.compute_internal_dc_voltage c.inp
  if c.L_dc = 0 then .error "ZeroDivisionError"
  else .ok [(u_dc - u_dc_int) / c.L_dc]

/-- Continuous time series of the algebraic converter
(class CurrentSourceConverterTimeSeries); numpy arrays are modelled by
lists, dataclass field defaults by empty lists. -/
structure CurrentSourceConverterTimeSeries where
  i_dc : List ℝ := []
  q_c_ab : List ℂ := []
  i_c_ab : List ℂ := []
  u_c_ab : List ℂ := []
  u_dc_int : List ℝ := []

/-- CurrentSourceConverterTimeSeries.__post_init__: fills the i_dc sequence
with the configured constant, one entry per element of the time vector. -/
def CurrentSourceConverterTimeSeries.create
    (t : List ℝ) (subsystem : CurrentSourceConverter) :
    CurrentSourceConverterTimeSeries :=
  { i_dc := List.replicate t.length subsystem.i_dc }

/-- Continuous time series of the inductive-DC-bus converter
(class InductiveDCBusCurrentSourceConverterTimeSeries).  The Python
subclass inherits the dataclass fields of the base time series; its
post-init assignment self.u_dc = np.array(subsystem._history.i_dc) creates
the extra attribute u_dc, modelled here as an extra field. -/
structure InductiveDCBusCurrentSourceConverterTimeSeries where
  i_dc : List ℝ := []
  q_c_ab : List ℂ := []
  i_c_ab : List ℂ := []
  u_c_ab : List ℂ := []
  u_dc_int : List ℝ := []
  u_dc : List ℝ := []

/-- InductiveDCBusCurrentSourceConverterTimeSeries.__post_init__: the
override replaces the base post-init (which is not invoked), stores the
recorded i_dc state history into the attribute u_dc, and leaves every
inherited dataclass field, the i_dc sequence included, at its empty
default. -/
def InductiveDCBusCurrentSourceConverterTimeSeries.create
    (t : List ℝ) (subsystem : InductiveDCBusCurrentSourceConverter) :
    InductiveDCBusCurrentSourceConverterTimeSeries :=
  { u_dc := subsystem.history_i_dc }

/-! ## LC filter model: motulator/grid/model/_lc_filter.py -/

/-- AC filter inputs (class Inputs in _lc_filter.py). -/
structure LCFilterInputs where
  i_c_ab : ℂ := 0
  e_g_ab : ℂ := 0

/-- LC filter states (class LCFilterStates): exactly the two dynamical
variables, capacitor voltage and grid-side current. -/
structure LCFilterStates where
  u_c_ab : ℂ := 0
  i_g_ab : ℂ := 0

/-- LC filter outputs (class LCFilterOutputs). -/
structure LCFilterOutputs where
  u_c_ab : ℂ
  i_g_ab : ℂ

/-- Model of an LC filter and an inductive-resistive grid
(class LCFilter). -/
structure LCFilter where
  C : ℝ
  L : ℝ
  R_g : ℝ
  state : LCFilterStates
  inp : LCFilterInputs
  out : LCFilterOutputs

/-- LCFilter.__init__: stores the parameters and builds the initial state,
input and output records.  The Python constructor performs no validation
whatsoever, so the embedded constructor always returns ok. -/
def LCFilter.construct (C L R_g : ℝ) (u_f0_ab : ℂ) : Except String LCFilter :=
  .ok { C := C, L := L, R_g := R_g,
        state := { u_c_ab := u_f0_ab, i_g_ab := 0 },
        inp := { i_c_ab := 0, e_g_ab := u_f0_ab },
        out := { u_c_ab := u_f0_ab, i_g_ab := 0 } }

/-- LCFilter.pcc_voltage: the point-of-common-coupling voltage, an algebraic
function of the current state and inputs. -/
def LCFilter.pcc_voltage
    (fil : LCFilter) (state : LCFilterStates) (inp : LCFilterInputs) : ℂ :=
  inp.e_g_ab - (fil.R_g : ℂ) * state.i_g_ab

/-- LCFilter.set_outputs: copies the two states into the output record. -/
def LCFilter.set_outputs (fil : LCFilter) (t : ℝ) : LCFilter :=
  { fil with out := { u_c_ab := fil.state.u_c_ab, i_g_ab := fil.state.i_g_ab } }

/-- LCFilter.rhs: the two state derivatives, in state order.  The Python
complex-by-float divisions raise ZeroDivisionError when C (first) or L
(second) is zero. -/
def LCFilter.rhs (fil : LCFilter) (t : ℝ) : Except String (List ℂ) :=
  if fil.C = 0 then .error "ZeroDivisionError"
  else if fil.L = 0 then .error "ZeroDivisionError"
  else .ok
    [(fil.inp.i_c_ab - fil.state.i_g_ab) / (fil.C : ℂ),
     (fil.state.u_c_ab - fil.inp.e_g_ab - (fil.R_g : ℂ) * fil.state.i_g_ab)
       / (fil.L : ℂ)]

/-! ## PLL and open-loop controller: motulator/grid/control/_csc_open_loop.py -/

/-- PLL state estimates (class PLLStates). -/
structure PLLStates where
  w_g : ℝ := 0
  theta_c : ℝ := 0
  u_g : ℝ := 0

/-- Feedback signals produced by the PLL (class PLLOutputSignals). -/
structure PLLOutputSignals where
  i_c : ℂ := 0
  u_c : ℂ := 0
  u_g : ℝ := 0
  u_g_meas : ℂ := 0
  theta_c : ℝ := 0
  w_g : ℝ := 0
  w_c : ℝ := 0
  p_g : ℝ := 0
  q_g : ℝ := 0
  eps : ℝ := 0

/-- Phase-locked loop with voltage-magnitude filtering (class PLL). -/
structure PLL where
  k_p : ℝ
  k_i : ℝ
  state : PLLStates

/-- PLL.__init__: the gains are fixed from the single bandwidth parameter,
and the state starts at the nominal frequency and voltage with zero
angle. -/
def PLL.init (u_nom w_nom alpha_pll : ℝ) : PLL :=
  { k_p := 2 * alpha_pll, k_i := alpha_pll ^ 2,
    state := { w_g := w_nom, theta_c := 0, u_g := u_nom } }

/-- PLL.compute_output: a pure function of the current (pre-update) PLL
record and the three measured space vectors. -/
def PLL.compute_output
    (p : PLL) (u_c_ab i_c_ab u_g_meas_ab : ℂ) : PLLOutputSignals :=
  let theta_c := p.state.theta_c
  let i_c := Complex.exp (-Complex.I * (theta_c : ℂ)) * i_c_ab
  let u_c := Complex.exp (-Complex.I * (theta_c : ℂ)) * u_c_ab
  let u_g_meas := Complex.exp (-Complex.I * (theta_c : ℂ)) * u_g_meas_ab
  let u_g := p.state.u_g
  let eps := if 0 < p.state.u_g then u_g_meas.im / p.state.u_g else 0
  let w_c := p.state.w_g + p.k_p * eps
  let s_g := ((1.5 * u_g : ℝ) : ℂ) * (starRingEnd ℂ) i_c
  { i_c := i_c, u_c := u_c, u_g := u_g, u_g_meas := u_g_meas,
    theta_c := theta_c, w_g := p.state.w_g, w_c := w_c,
    p_g := s_g.re, q_g := s_g.im, eps := eps }

/-- Modelled from the spec: the helper wrap lives in
motulator.common.utils._utils, which is absent from the source tree.  The
spec says the angle is wrapped into a canonical angular range; we model the
standard range from -pi (inclusive) to pi (exclusive). -/
def wrap (theta : ℝ) : ℝ :=
  theta - 2 * Real.pi * (⌊(theta + Real.pi) / (2 * Real.pi)⌋ : ℝ)

/-- PLL.update: the three integral states advanced from the pre-update
state and the output record computed earlier in the same sample. -/
def PLL.update (p : PLL) (T_s : ℝ) (out : PLLOutputSignals) : PLL :=
  { p with state :=
    { theta_c := wrap (p.state.theta_c + T_s * out.w_c),
      w_g := p.state.w_g + T_s * p.k_i * out.eps,
      u_g := p.state.u_g + T_s * p.k_p * (out.u_g_meas.re - p.state.u_g) } }

/-- Reference signals of the grid-following control (class References). -/
structure References where
  T_s : ℝ := 0
  u_c : ℂ := 0
  i_c : ℂ := 0
  p_g : ℝ := 0
  q_g : ℝ := 0
  u_dc : Option ℝ := none

/-- Open-loop controller (class OpenLoopController): the fields that the
embedded operations use. -/
structure OpenLoopController where
  pll : PLL
  T_s : ℝ

/-- OpenLoopController.compute_output: builds the reference record and sets
the reference current to (p_g - j q_g) / (1.5 u_g).  The Python
complex-by-float division raises ZeroDivisionError when 1.5 * fbk.u_g is
zero. -/
def OpenLoopController.compute_output
    (c : OpenLoopController) (p_g_ref q_g_ref : ℝ) (fbk : PLLOutputSignals) :
    Except String References :=
  if (1.5 * fbk.u_g : ℝ) = 0 then .error "ZeroDivisionError"
  else .ok
    { T_s := c.T_s, p_g := p_g_ref, q_g := q_g_ref,
      i_c := ((p_g_ref : ℂ) - Complex.I * (q_g_ref : ℂ))
        / ((1.5 * fbk.u_g : ℝ) : ℂ) }

/-- Modelled from the spec: the interconnection driver (in the simulation
modules absent from the source tree) feeds the reference current produced
by the controller to the converter subsystem input and holds it constant,
zero-order hold, until the next sampling boundary. -/
def held_converter_command (ref : References) (t : ℝ) : ℂ :=
  ref.i_c

/-- A converter with one accepted integration step recorded: the initial
condition i_dc = 10 appended once to the state history. -/
def recordedConverter : InductiveDCBusCurrentSourceConverter :=
  { InductiveDCBusCurrentSourceConverter.init 10 1 with history_i_dc := [10] }

/-- Whether an embedded Python computation returned normally (ok) rather
than raising (error). -/
def returnsNormally {α : Type} : Except String α → Bool
  | .ok _ => true
  | .error _ => false

/-- A concrete LC filter used to evaluate the derivative equations: unit
capacitance and inductance, no grid resistance, zero states, injected
current 2 and grid voltage 3. -/
def evalFilter : LCFilter :=
  { C := 1, L := 1, R_g := 0,
    state := { u_c_ab := 0, i_g_ab := 0 },
    inp := { i_c_ab := 2, e_g_ab := 3 },
    out := { u_c_ab := 0, i_g_ab := 0 } }

/-- A concrete open-loop controller used for evaluation. -/
def evalController : OpenLoopController :=
  { pll := PLL.init 1 1 1, T_s := 2 }

/-- Feedback with a nonzero filtered voltage magnitude. -/
def feedbackNonzero : PLLOutputSignals :=
  { u_g := 2 }

/-- Feedback with a zero filtered voltage magnitude (every field at its
default). -/
def feedbackZero : PLLOutputSignals :=
  {}

/-! ## Theorems -/

/-- Helper: one sample never changes the output DC current of the algebraic
converter. -/
theorem csc_sample_out_i_dc (c : CurrentSourceConverter) (tq : ℝ × ℂ) :
    (c.sample tq).out.i_dc = c.out.i_dc := rfl

/-- Helper: a whole run never changes the output DC current of the
algebraic converter. -/
theorem csc_run_out_i_dc (samples : List (ℝ × ℂ)) (c : CurrentSourceConverter) :
    (c.run samples).out.i_dc = c.out.i_dc := by
  induction samples generalizing c with
  | nil => rfl
  | cons x xs ih => exact (ih (c.sample x)).trans rfl

/-- C1: for every time t, InductiveDCBusCurrentSourceConverter.rhs returns
exactly one derivative, (u_dc_external - u_dc_internal) / L_dc with
u_dc_internal = 1.5 * Re(q_c_ab * conj u_c_ab); the external DC voltage is
the stored callable applied at t when the input is callable, the value
itself when it is a numeric constant, and 0 when it was never configured;
consequently the derivative is zero whenever the external voltage equals
the internal one. -/
theorem inductive_csc_rhs_characterization
    (c : InductiveDCBusCurrentSourceConverter) (t : ℝ) (hL : c.L_dc ≠ 0) :
    c.rhs t = .ok [(resolveUdc c.inp.u_dc t
        - 1.5 * (c.inp.q_c_ab * (starRingEnd ℂ) c.inp.u_c_ab).re) / c.L_dc]
    ∧ (∀ f : ℝ → ℝ, resolveUdc (.func f) t = f t)
    ∧ (∀ v : ℝ, resolveUdc (.const v) t = v)
    ∧ resolveUdc .none t = 0
    ∧ (resolveUdc c.inp.u_dc t
        = 1.5 * (c.inp.q_c_ab * (starRingEnd ℂ) c.inp.u_c_ab).re →
        c.rhs t = .ok [0]) := by
  refine ⟨?_, fun f => rfl, fun v => rfl, rfl, ?_⟩
  · simp [InductiveDCBusCurrentSourceConverter.rhs,
      CurrentSourceConverter.compute_internal_dc_voltage, hL]
  · intro h
    simp [InductiveDCBusCurrentSourceConverter.rhs,
      CurrentSourceConverter.compute_internal_dc_voltage, hL, h]

/-- Witness for C1 at a concrete converter: i_dc = 10, L_dc = 2, inputs at
their defaults, where the external and internal DC voltages agree (both
zero), so the derivative is zero. -/
theorem inductive_csc_rhs_characterization_witness :
    (InductiveDCBusCurrentSourceConverter.init 10 2).rhs 5 = .ok [0] := by
  refine (inductive_csc_rhs_characterization
    (InductiveDCBusCurrentSourceConverter.init 10 2) 5
    (by norm_num [InductiveDCBusCurrentSourceConverter.init])).2.2.2.2 ?_
  simp [InductiveDCBusCurrentSourceConverter.init, resolveUdc,
    CurrentSourceConverter.compute_internal_dc_voltage]

/-- C6: set_outputs writes exactly q_c_ab * i_dc into the output AC current
while leaving the output DC current at the configured constant; over any
run of samples the output DC current stays at the configured constant, the
output after a sample with duty q is q * i_dc, and in particular with
i_dc = 10 and duty 1 the output AC current is exactly 10 at every
sample. -/
theorem csc_algebraic_output (i : ℝ) :
    (∀ (c : CurrentSourceConverter) (t : ℝ),
      (c.set_outputs t).out.i_c_ab = c.inp.q_c_ab * (c.out.i_dc : ℂ)
      ∧ (c.set_outputs t).out.i_dc = c.out.i_dc)
    ∧ (∀ samples : List (ℝ × ℂ),
      ((CurrentSourceConverter.init i).run samples).out.i_dc = i)
    ∧ (∀ (samples : List (ℝ × ℂ)) (t : ℝ) (q : ℂ),
      (((CurrentSourceConverter.init i).run samples).sample (t, q)).out.i_c_ab
        = q * (i : ℂ))
    ∧ (∀ (samples : List (ℝ × ℂ)) (t : ℝ),
      (((CurrentSourceConverter.init 10).run samples).sample (t, 1)).out.i_c_ab
        = 10) := by
  refine ⟨fun c t => ⟨rfl, rfl⟩, ?_, ?_, ?_⟩
  · intro samples
    exact (csc_run_out_i_dc samples _).trans rfl
  · intro samples t q
    show q * ((((CurrentSourceConverter.init i).run samples)).out.i_dc : ℂ)
      = q * (i : ℂ)
    rw [csc_run_out_i_dc]
    exact rfl
  · intro samples t
    show (1 : ℂ) * ((((CurrentSourceConverter.init 10).run samples)).out.i_dc : ℂ)
      = 10
    rw [csc_run_out_i_dc]
    norm_num [CurrentSourceConverter.init]

/-- C7: evaluation of the time-series reconstruction of the inductive
DC-bus converter at a converter whose recorded history is [10] and whose
time vector is [0]: the reconstructed i_dc sequence is empty (it does not
equal the recorded history and its length differs from the length of the
time vector), while the recorded history lands in the extra u_dc attribute;
the base-class reconstruction, in contrast, does fill i_dc with one entry
per time point, starting at the configured constant. -/
theorem inductive_csc_time_series_eval :
    (InductiveDCBusCurrentSourceConverterTimeSeries.create [0] recordedConverter).i_dc = []
    ∧ (InductiveDCBusCurrentSourceConverterTimeSeries.create [0] recordedConverter).u_dc = [10]
    ∧ (InductiveDCBusCurrentSourceConverterTimeSeries.create [0] recordedConverter).i_dc
        ≠ recordedConverter.history_i_dc
    ∧ (InductiveDCBusCurrentSourceConverterTimeSeries.create [0] recordedConverter).i_dc.length
        ≠ ([0] : List ℝ).length
    ∧ (CurrentSourceConverterTimeSeries.create [0] (CurrentSourceConverter.init 10)).i_dc = [10] := by
  refine ⟨rfl, rfl, ?_, ?_, ?_⟩
  · simp [InductiveDCBusCurrentSourceConverterTimeSeries.create, recordedConverter]
  · simp [InductiveDCBusCurrentSourceConverterTimeSeries.create]
  · simp [CurrentSourceConverterTimeSeries.create, CurrentSourceConverter.init,
      List.replicate]

/-- C10: the base-class set_external_dc_voltage raises NotImplementedError
for every argument, while the inductive-DC-bus override stores the supplied
callable in the u_dc input. -/
theorem set_external_dc_voltage_dispatch
    (c : CurrentSourceConverter) (c2 : InductiveDCBusCurrentSourceConverter)
    (f : ℝ → ℝ) :
    c.set_external_dc_voltage f = .error "NotImplementedError"
    ∧ (c2.set_external_dc_voltage f).inp.u_dc = .func f :=
  ⟨rfl, rfl⟩

/-- C2: for every state and input, LCFilter.rhs returns exactly the ordered
pair of derivatives [(i_c_ab - i_g_ab)/C, (u_c_ab - e_g_ab - R_g i_g_ab)/L],
and the point-of-common-coupling voltage is the algebraic function
e_g_ab - R_g i_g_ab of the current state and inputs (the state record holds
only the two dynamical variables). -/
theorem lc_filter_rhs_and_pcc (fil : LCFilter) (t : ℝ)
    (hC : fil.C ≠ 0) (hL : fil.L ≠ 0) :
    fil.rhs t = .ok
      [(fil.inp.i_c_ab - fil.state.i_g_ab) / (fil.C : ℂ),
       (fil.state.u_c_ab - fil.inp.e_g_ab - (fil.R_g : ℂ) * fil.state.i_g_ab)
         / (fil.L : ℂ)]
    ∧ fil.pcc_voltage fil.state fil.inp
        = fil.inp.e_g_ab - (fil.R_g : ℂ) * fil.state.i_g_ab := by
  refine ⟨?_, rfl⟩
  simp [LCFilter.rhs, hC, hL]

/-- Witness for C2 at a concrete filter with C = L = 1, R_g = 0, zero
states, injected current 2 and grid voltage 3: the derivatives evaluate to
[2, -3] and the PCC voltage to 3. -/
theorem lc_filter_rhs_and_pcc_witness :
    evalFilter.rhs 0 = .ok [2, -3]
    ∧ evalFilter.pcc_voltage evalFilter.state evalFilter.inp = 3 := by
  have h := lc_filter_rhs_and_pcc evalFilter 0
    (by norm_num [evalFilter]) (by norm_num [evalFilter])
  refine ⟨?_, ?_⟩
  · rw [h.1]
    norm_num [evalFilter]
  · rw [h.2]
    norm_num [evalFilter]

/-- C8 counterexample: constructing an LCFilter with zero inductance
succeeds: the constructor performs no validation and returns the filter
record, refuting failure at construction time. -/
theorem lc_filter_zero_L_constructs :
    LCFilter.construct 2 0 0 0 = .ok
      { C := 2, L := 0, R_g := 0,
        state := { u_c_ab := 0, i_g_ab := 0 },
        inp := { i_c_ab := 0, e_g_ab := 0 },
        out := { u_c_ab := 0, i_g_ab := 0 } } := rfl

/-- C8 amended: constructing an LCFilter with L = 0 succeeds (the
constructor validates nothing; L even defaults to zero in the source), and
the failure surfaces instead at the first rhs evaluation, where the
division by the zero inductance raises. -/
theorem lc_filter_zero_L_defers_failure (C_f R_g : ℝ) (u0 : ℂ) (t : ℝ)
    (hC : C_f ≠ 0) :
    LCFilter.construct C_f 0 R_g u0 = .ok
      { C := C_f, L := 0, R_g := R_g,
        state := { u_c_ab := u0, i_g_ab := 0 },
        inp := { i_c_ab := 0, e_g_ab := u0 },
        out := { u_c_ab := u0, i_g_ab := 0 } }
    ∧ LCFilter.rhs
      { C := C_f, L := 0, R_g := R_g,
        state := { u_c_ab := u0, i_g_ab := 0 },
        inp := { i_c_ab := 0, e_g_ab := u0 },
        out := { u_c_ab := u0, i_g_ab := 0 } } t = .error "ZeroDivisionError" := by
  refine ⟨rfl, ?_⟩
  simp [LCFilter.rhs, hC]

/-- Witness for the amended C8 at C_f = 1, R_g = 0, zero initial voltage,
first evaluation at t = 0. -/
theorem lc_filter_zero_L_defers_failure_witness :
    LCFilter.construct 1 0 0 0 = .ok
      { C := 1, L := 0, R_g := 0,
        state := { u_c_ab := 0, i_g_ab := 0 },
        inp := { i_c_ab := 0, e_g_ab := 0 },
        out := { u_c_ab := 0, i_g_ab := 0 } }
    ∧ LCFilter.rhs
      { C := 1, L := 0, R_g := 0,
        state := { u_c_ab := 0, i_g_ab := 0 },
        inp := { i_c_ab := 0, e_g_ab := 0 },
        out := { u_c_ab := 0, i_g_ab := 0 } } 0 = .error "ZeroDivisionError" :=
  lc_filter_zero_L_defers_failure 1 0 0 0 one_ne_zero

/-- C3: PLL.compute_output is a function of the gains and the pre-update
state alone; PLL.update then sets theta_c to wrap (theta_c + T_s w_c),
w_g to w_g + T_s k_i eps, and u_g to u_g + T_s k_p (Re(rotated measured
voltage) - u_g), all read from the pre-update state; the constructor fixes
the gains k_p = 2 alpha_pll and k_i = alpha_pll squared. -/
theorem pll_update_reads_pre_update_state
    (u_nom w_nom alpha_pll T_s : ℝ) (p : PLL) (u_c_ab i_c_ab u_g_meas_ab : ℂ) :
    (PLL.init u_nom w_nom alpha_pll).k_p = 2 * alpha_pll
    ∧ (PLL.init u_nom w_nom alpha_pll).k_i = alpha_pll ^ 2
    ∧ p.compute_output u_c_ab i_c_ab u_g_meas_ab
        = PLL.compute_output ⟨p.k_p, p.k_i, p.state⟩ u_c_ab i_c_ab u_g_meas_ab
    ∧ (p.update T_s (p.compute_output u_c_ab i_c_ab u_g_meas_ab)).state.theta_c
        = wrap (p.state.theta_c
            + T_s * (p.compute_output u_c_ab i_c_ab u_g_meas_ab).w_c)
    ∧ (p.update T_s (p.compute_output u_c_ab i_c_ab u_g_meas_ab)).state.w_g
        = p.state.w_g
          + T_s * p.k_i * (p.compute_output u_c_ab i_c_ab u_g_meas_ab).eps
    ∧ (p.update T_s (p.compute_output u_c_ab i_c_ab u_g_meas_ab)).state.u_g
        = p.state.u_g + T_s * p.k_p
          * ((Complex.exp (-Complex.I * (p.state.theta_c : ℂ)) * u_g_meas_ab).re
             - p.state.u_g) :=
  ⟨rfl, rfl, rfl, rfl, rfl, rfl⟩

/-- C4: the phase error produced by PLL.compute_output is the imaginary
part of the rotated measured voltage divided by the filtered magnitude
when that magnitude is positive, and zero otherwise: the division is
guarded and every sample yields a value. -/
theorem pll_eps_guarded (p : PLL) (u_c_ab i_c_ab u_g_meas_ab : ℂ) :
    (p.compute_output u_c_ab i_c_ab u_g_meas_ab).eps
      = if 0 < p.state.u_g
        then (Complex.exp (-Complex.I * (p.state.theta_c : ℂ)) * u_g_meas_ab).im
              / p.state.u_g
        else 0 := rfl

/-- C5: for every power references and feedback with a nonzero magnitude
estimate, OpenLoopController.compute_output returns the reference record
whose current is (p_g_ref - j q_g_ref) / (1.5 fbk.u_g), and the zero-order
held command derived from that record equals the same current at every
time in the following sampling window. -/
theorem open_loop_reference_current
    (c : OpenLoopController) (p_g_ref q_g_ref : ℝ) (fbk : PLLOutputSignals)
    (h : fbk.u_g ≠ 0) :
    c.compute_output p_g_ref q_g_ref fbk = .ok
      { T_s := c.T_s, u_c := 0,
        i_c := ((p_g_ref : ℂ) - Complex.I * (q_g_ref : ℂ))
          / ((1.5 * fbk.u_g : ℝ) : ℂ),
        p_g := p_g_ref, q_g := q_g_ref, u_dc := none }
    ∧ ∀ t : ℝ, held_converter_command
        { T_s := c.T_s, u_c := 0,
          i_c := ((p_g_ref : ℂ) - Complex.I * (q_g_ref : ℂ))
            / ((1.5 * fbk.u_g : ℝ) : ℂ),
          p_g := p_g_ref, q_g := q_g_ref, u_dc := none } t
        = ((p_g_ref : ℂ) - Complex.I * (q_g_ref : ℂ))
          / ((1.5 * fbk.u_g : ℝ) : ℂ) := by
  have h15 : (1.5 * fbk.u_g : ℝ) ≠ 0 := mul_ne_zero (by norm_num) h
  refine ⟨?_, fun t => rfl⟩
  simp [OpenLoopController.compute_output, h15]

/-- Witness for C5 at p_g_ref = 3, q_g_ref = 0 and a feedback with
u_g = 2: the reference current evaluates to (3 - j 0) / 3 = 1 and the held
command at time 7 equals 1. -/
theorem open_loop_reference_current_witness :
    evalController.compute_output 3 0 feedbackNonzero = .ok
      { T_s := 2, u_c := 0, i_c := 1, p_g := 3, q_g := 0, u_dc := none }
    ∧ held_converter_command
      { T_s := 2, u_c := 0, i_c := 1, p_g := 3, q_g := 0, u_dc := none } 7
      = 1 := by
  have h := open_loop_reference_current evalController 3 0 feedbackNonzero
    (by norm_num [feedbackNonzero])
  refine ⟨?_, rfl⟩
  rw [h.1]
  norm_num [evalController, feedbackNonzero]

/-- C9: the reference-current division of OpenLoopController.compute_output
is unguarded: it returns normally for every feedback with a nonzero
magnitude estimate and raises ZeroDivisionError when the estimate is zero,
in contrast with the guarded phase-error computation of the PLL. -/
theorem open_loop_division_unguarded
    (c : OpenLoopController) (p_g_ref q_g_ref : ℝ) (fbk : PLLOutputSignals) :
    (fbk.u_g ≠ 0 →
      returnsNormally (c.compute_output p_g_ref q_g_ref fbk) = true)
    ∧ (fbk.u_g = 0 →
      c.compute_output p_g_ref q_g_ref fbk = .error "ZeroDivisionError") := by
  constructor
  · intro h
    have h15 : (1.5 * fbk.u_g : ℝ) ≠ 0 := mul_ne_zero (by norm_num) h
    simp [OpenLoopController.compute_output, h15, returnsNormally]
  · intro h
    simp [OpenLoopController.compute_output, h]

/-- Witness for C9: with u_g = 2 the computation returns normally, with
u_g = 0 it raises ZeroDivisionError. -/
theorem open_loop_division_unguarded_witness :
    returnsNormally (evalController.compute_output 3 0 feedbackNonzero) = true
    ∧ evalController.compute_output 3 0 feedbackZero
      = .error "ZeroDivisionError" :=
  ⟨(open_loop_division_unguarded evalController 3 0 feedbackNonzero).1
      (by norm_num [feedbackNonzero]),
   (open_loop_division_unguarded evalController 3 0 feedbackZero).2 rfl⟩

end
